import Mathlib

/-!
Shallow embedding of the real-time audio-loop engine of `src/app.js`
(glitch-bliss): the `ParameterSmoother` class, the discrete speed
quantizer `mapToSpeed`, the per-looper record/playback state machine
(`createLooper`, `startRecording`, `stopRecording`, `startPlayback`,
`stopPlayback`, `clearLoop`, the recording `onaudioprocess` callback),
the per-frame `updateLooperParameters` loop, the device-orientation
fan-out, and the reverb wet/dry mix handler.

JS numbers are modelled as `ℚ` (the claims under verification are
exact-arithmetic statements), sample buffers as `Nat → ℚ` (Web Audio
buffers are zero-initialised), and live playback voices as an explicit
list of voices together with a fresh-id counter: a started
`AudioBufferSourceNode` keeps running until `stop()` is called on it,
so `runningVoices` holds every voice that has been started and not yet
stopped, and `bufferSource` holds the id of the voice the looper
currently references (JS `looper.bufferSource`, `null` = `none`).
-/

/-- The `ParameterSmoother` class of `src/app.js` lines 24-39:
`currentValue`, `targetValue`, `smoothingFactor`. -/
structure ParameterSmoother where
  currentValue : ℚ
  targetValue : ℚ
  smoothingFactor : ℚ
deriving DecidableEq

namespace ParameterSmoother

/-- JS `constructor(initialValue, smoothingFactor = 0.1)`. -/
def mk0 (initialValue : ℚ) (smoothingFactor : ℚ) : ParameterSmoother :=
  { currentValue := initialValue, targetValue := initialValue,
    smoothingFactor := smoothingFactor }

/-- JS `setTarget(newValue)`. -/
def setTarget (s : ParameterSmoother) (newValue : ℚ) : ParameterSmoother :=
  { s with targetValue := newValue }

/-- JS `step()`: `this.currentValue += (this.targetValue - this.currentValue) * this.smoothingFactor;
return this.currentValue;` — returns the updated smoother together with the
returned value. -/
def step (s : ParameterSmoother) : ParameterSmoother × ℚ :=
  let c := s.currentValue + (s.targetValue - s.currentValue) * s.smoothingFactor
  ({ s with currentValue := c }, c)

/-- The smoother after `n` consecutive `step()` calls. -/
def stepN (s : ParameterSmoother) (n : Nat) : ParameterSmoother :=
  (fun t => (step t).1)^[n] s

end ParameterSmoother

/-- JS `const PLAYBACK_SPEEDS = [-4, -2, -1.5, -1, -0.5, -0.25, 0.25, 0.5, 1, 1.5, 2, 4];` -/
def PLAYBACK_SPEEDS : List ℚ :=
  [-4, -2, -3/2, -1, -1/2, -1/4, 1/4, 1/2, 1, 3/2, 2, 4]

/-- JS `mapToSpeed(normalizedValue)` of `src/app.js` lines 45-48:
`index = Math.floor(normalizedValue * PLAYBACK_SPEEDS.length)`,
`return PLAYBACK_SPEEDS[Math.min(index, PLAYBACK_SPEEDS.length - 1)]`.
A negative index reads outside the array (JS `undefined`), modelled as
`none`. -/
def mapToSpeed (normalizedValue : ℚ) : Option ℚ :=
  let index : ℤ := Int.floor (normalizedValue * (PLAYBACK_SPEEDS.length : ℚ))
  let i : ℤ := min index ((PLAYBACK_SPEEDS.length : ℤ) - 1)
  if i < 0 then none else PLAYBACK_SPEEDS[i.toNat]?

/-- A live playback voice (`AudioBufferSourceNode` plus its dedicated
play buffer, created in `startPlayback`): identity, copied sample data,
`loop` flag and `playbackRate.value`. -/
structure Voice where
  id : Nat
  buffer : List ℚ
  loop : Bool
  rate : ℚ
deriving DecidableEq

/-- The per-looper state created by `createLooper` (`src/app.js` lines
133-186), together with the explicit model of started-and-not-yet-stopped
voices. `bufferLength` is the closure constant
`audioCtx.sampleRate * 30` captured at creation. -/
structure Looper where
  index : Nat
  recordBufferData : Nat → ℚ
  writePosition : Nat
  recordedLength : Nat
  bufferLength : Nat
  bufferSource : Option Nat
  isRecording : Bool
  isPlaying : Bool
  glitchIntensity : ℚ
  playbackRate : ℚ
  targetPlaybackRate : ℚ
  stutterRate : ℚ
  feedbackAmount : ℚ
  runningVoices : List Voice
  nextVoiceId : Nat

/-- JS `createLooper(index, sourceNode)`: fresh looper with a
zero-initialised 30-second record buffer (`audioCtx.createBuffer`
zero-fills), all transport flags off, `playbackRate = 1`,
`targetPlaybackRate = 1`. -/
def createLooper (index : Nat) (sampleRate : Nat) : Looper :=
  { index := index
    recordBufferData := fun _ => 0
    writePosition := 0
    recordedLength := 0
    bufferLength := sampleRate * 30
    bufferSource := none
    isRecording := false
    isPlaying := false
    glitchIntensity := 0
    playbackRate := 1
    targetPlaybackRate := 1
    stutterRate := 0
    feedbackAmount := 0
    runningVoices := []
    nextVoiceId := 0 }

/-- JS `stopRecording(looperIndex)` (`src/app.js` lines 202-210):
`looper.isRecording = false` (UI update out of scope). -/
def stopRecording (l : Looper) : Looper :=
  { l with isRecording := false }

/-- JS `stopPlayback(looperIndex)` (`src/app.js` lines 250-266): no-op when
not playing; otherwise stop and release `bufferSource` (the referenced
voice stops running) and clear `isPlaying`. -/
def stopPlayback (l : Looper) : Looper :=
  if l.isPlaying = false then l
  else
    match l.bufferSource with
    | some vid =>
        { l with
          runningVoices := l.runningVoices.filter (fun v => v.id ≠ vid)
          bufferSource := none
          isPlaying := false }
    | none => { l with isPlaying := false }

/-- JS `startRecording(looperIndex)` (`src/app.js` lines 188-200): stop
playback first if playing, reset `writePosition` and `recordedLength`,
raise `isRecording`. -/
def startRecording (l : Looper) : Looper :=
  { (if l.isPlaying then stopPlayback l else l) with
    writePosition := 0, recordedLength := 0, isRecording := true }

/-- JS `startPlayback(looperIndex)` (`src/app.js` lines 212-248): stop
recording first if recording; refuse when `recordedLength === 0`;
otherwise build a fresh voice whose buffer is a copy of the first
`recordedLength` samples of the record buffer, `loop = true`,
`playbackRate.value = targetPlaybackRate`, start it (it joins the
running voices; the previous `bufferSource` reference is overwritten,
not stopped), and raise `isPlaying`. This is the body after the
stop-recording preamble; `startPlayback` below composes the two. -/
def startPlaybackVoice (l' : Looper) : Looper :=
  if l'.recordedLength = 0 then l'
  else
    { l' with
      bufferSource := some l'.nextVoiceId
      runningVoices := l'.runningVoices ++
        [{ id := l'.nextVoiceId
           buffer := (List.range l'.recordedLength).map l'.recordBufferData
           loop := true
           rate := l'.targetPlaybackRate }]
      nextVoiceId := l'.nextVoiceId + 1
      isPlaying := true }

/-- JS `startPlayback(looperIndex)` in full: `if (looper.isRecording)
stopRecording(looperIndex);` followed by the guarded voice creation. -/
def startPlayback (l : Looper) : Looper :=
  startPlaybackVoice (if l.isRecording then stopRecording l else l)

/-- JS `clearLoop(looperIndex)` (`src/app.js` lines 268-280): stop playback,
stop recording, zero `writePosition` and `recordedLength`. -/
def clearLoop (l : Looper) : Looper :=
  { stopRecording (stopPlayback l) with writePosition := 0, recordedLength := 0 }

/-- The `onaudioprocess` recording callback installed by `createLooper`
(`src/app.js` lines 162-175): no-op unless recording; when the buffer is
full (`remaining <= 0`) auto-stop recording; otherwise copy
`min(input.length, remaining)` input samples into the record buffer at
`writePosition`, advance `writePosition`, and set
`recordedLength = writePosition`. -/
def recordTick (l : Looper) (input : List ℚ) : Looper :=
  if l.isRecording = false then l
  else if l.bufferLength ≤ l.writePosition then stopRecording l
  else
    { l with
      recordBufferData := fun i =>
        if l.writePosition ≤ i ∧
            i < l.writePosition + min input.length (l.bufferLength - l.writePosition) then
          input.getD (i - l.writePosition) 0
        else l.recordBufferData i
      writePosition := l.writePosition + min input.length (l.bufferLength - l.writePosition)
      recordedLength := l.writePosition + min input.length (l.bufferLength - l.writePosition) }

/-- A transport command or recording callback addressed to one looper. -/
inductive Command where
  | record
  | stopRec
  | play
  | stop
  | clear
  | tick (input : List ℚ)

/-- Dispatch one command to a looper. -/
def applyCommand (l : Looper) : Command → Looper
  | Command.record => startRecording l
  | Command.stopRec => stopRecording l
  | Command.play => startPlayback l
  | Command.stop => stopPlayback l
  | Command.clear => clearLoop l
  | Command.tick input => recordTick l input

/-- Run a sequence of commands. -/
def applyCommands (l : Looper) (cs : List Command) : Looper :=
  cs.foldl applyCommand l

/-- The pair of smoothers `parameterSmoothers[looper i]` built in
`startOscillators` (`src/app.js` lines 492-497): a glitch-intensity
smoother and a stutter-rate smoother. -/
structure SmootherPair where
  glitchIntensity : ParameterSmoother
  stutterRate : ParameterSmoother
deriving DecidableEq

/-- The slice, for one looper, of the per-frame `updateLooperParameters` body
(`src/app.js` lines 284-305): step the glitch smoother, take
`playbackRate = looper.targetPlaybackRate || 1` (JS `||`: a zero target
falls back to `1`), step the stutter smoother, write the three values
into the looper, and when `bufferSource && isPlaying` write the rate
live into the referenced voice. -/
def frameUpdate (l : Looper) (sm : SmootherPair) : Looper × SmootherPair :=
  let g := sm.glitchIntensity.step
  let playbackRate := if l.targetPlaybackRate = 0 then 1 else l.targetPlaybackRate
  let s := sm.stutterRate.step
  let l' := { l with
    glitchIntensity := g.2
    playbackRate := playbackRate
    stutterRate := s.2 }
  let l'' :=
    match l'.bufferSource with
    | some vid =>
        if l'.isPlaying then
          { l' with
            runningVoices := l'.runningVoices.map
              (fun v => if v.id = vid then { v with rate := playbackRate } else v) }
        else l'
    | none => l'
  (l'', { glitchIntensity := g.1, stutterRate := s.1 })

/-- The loop body of `updateLooperParameters` applied to every looper in order
(`loopers.forEach`), each looper paired with its smoother pair. -/
def updateLooperParameters (ls : List (Looper × SmootherPair)) :
    List (Looper × SmootherPair) :=
  ls.map fun p => frameUpdate p.1 p.2

/-- The state the `deviceorientation` listener touches (`src/app.js`
lines 585-605): the four glitch-intensity smoothers and the four
loopers. -/
structure EngineOrient where
  smoother0 : ParameterSmoother
  smoother1 : ParameterSmoother
  smoother2 : ParameterSmoother
  smoother3 : ParameterSmoother
  looper0 : Looper
  looper1 : Looper
  looper2 : Looper
  looper3 : Looper

/-- Normalization `(event.gamma + 90) / 180`. -/
def normGamma (gamma : ℚ) : ℚ := (gamma + 90) / 180

/-- Normalization `(event.beta + 180) / 360`. -/
def normBeta (beta : ℚ) : ℚ := (beta + 180) / 360

/-- Normalization `event.alpha / 360`. -/
def normAlpha (alpha : ℚ) : ℚ := alpha / 360

/-- The `deviceorientation` listener body (`src/app.js` lines 585-605;
the iOS branch at lines 544-564 is identical): normalize the three
angles and fan out — looper 0 glitch ← gamma, speed ← mapToSpeed(beta);
looper 1 glitch ← beta, speed ← mapToSpeed(alpha); looper 2 glitch ←
alpha, speed ← mapToSpeed(gamma); looper 3 glitch ← (gamma + beta)/2,
speed ← mapToSpeed(alpha). A `mapToSpeed` miss (out-of-range index,
JS `undefined`) is not representable in a `ℚ`-valued rate, so the
update is `none` in that case; it never occurs for device-range
angles. -/
def onOrientation (s : EngineOrient) (gamma beta alpha : ℚ) : Option EngineOrient :=
  match mapToSpeed (normBeta beta), mapToSpeed (normAlpha alpha),
      mapToSpeed (normGamma gamma) with
  | some sb, some sa, some sg =>
      some { s with
        smoother0 := s.smoother0.setTarget (normGamma gamma)
        looper0 := { s.looper0 with targetPlaybackRate := sb }
        smoother1 := s.smoother1.setTarget (normBeta beta)
        looper1 := { s.looper1 with targetPlaybackRate := sa }
        smoother2 := s.smoother2.setTarget (normAlpha alpha)
        looper2 := { s.looper2 with targetPlaybackRate := sg }
        smoother3 := s.smoother3.setTarget ((normGamma gamma + normBeta beta) / 2)
        looper3 := { s.looper3 with targetPlaybackRate := sa } }
  | _, _, _ => none

/-- The reverb wet/dry gain pair (`reverbWet.gain.value`,
`reverbDry.gain.value`), present only once `startOscillators` has built
the graph. -/
structure ReverbNodes where
  wet : ℚ
  dry : ℚ
deriving DecidableEq

/-- The `reverbSlider` input handler (`src/app.js` lines 617-630): when
the wet/dry nodes exist, set `wet = percent / 100` and
`dry = 1 - percent / 100`; before the engine starts (`none`) nothing
happens. -/
def setReverbMix (nodes : Option ReverbNodes) (percent : ℤ) : Option ReverbNodes :=
  match nodes with
  | none => none
  | some _ =>
      let wetGain : ℚ := (percent : ℚ) / 100
      some { wet := wetGain, dry := 1 - wetGain }

/-- The transport-exclusivity invariant of the spec: a looper is never
recording and playing at once. -/
def TransportExclusive (l : Looper) : Prop :=
  l.isRecording = false ∨ l.isPlaying = false

/-- The capacity invariant: the creation-time buffer length is
`sampleRate * 30` and the cursor fields stay inside it. -/
def CapacityInv (sampleRate : Nat) (l : Looper) : Prop :=
  l.bufferLength = sampleRate * 30 ∧
  l.writePosition ≤ sampleRate * 30 ∧
  l.recordedLength ≤ l.writePosition

/-- A concrete engine state for instantiating the orientation fan-out:
fresh glitch smoothers (factor `0.15`, as built by `startOscillators`)
and four fresh loopers. -/
def engineOrient0 : EngineOrient :=
  { smoother0 := ParameterSmoother.mk0 0 (15/100)
    smoother1 := ParameterSmoother.mk0 0 (15/100)
    smoother2 := ParameterSmoother.mk0 0 (15/100)
    smoother3 := ParameterSmoother.mk0 0 (15/100)
    looper0 := createLooper 0 44100
    looper1 := createLooper 1 44100
    looper2 := createLooper 2 44100
    looper3 := createLooper 3 44100 }

/-! Helper lemmas about the speed quantizer. -/

/-- For a nonnegative input the clamped index is in `[0, 11]`, so the
quantizer hits the table and returns one of its elements. -/
theorem mapToSpeed_eq_some_of_nonneg (x : ℚ) (hx : 0 ≤ x) :
    ∃ v ∈ PLAYBACK_SPEEDS, mapToSpeed x = some v := by
  have h0 : 0 ≤ Int.floor (x * (PLAYBACK_SPEEDS.length : ℚ)) :=
    Int.floor_nonneg.2 (mul_nonneg hx (by norm_num))
  have hi0 : 0 ≤ min (Int.floor (x * (PLAYBACK_SPEEDS.length : ℚ)))
      ((PLAYBACK_SPEEDS.length : ℤ) - 1) := by
    refine le_min h0 ?_
    norm_num [PLAYBACK_SPEEDS]
  have hi11 : min (Int.floor (x * (PLAYBACK_SPEEDS.length : ℚ)))
      ((PLAYBACK_SPEEDS.length : ℤ) - 1) ≤ (PLAYBACK_SPEEDS.length : ℤ) - 1 :=
    min_le_right _ _
  have hlt : (min (Int.floor (x * (PLAYBACK_SPEEDS.length : ℚ)))
      ((PLAYBACK_SPEEDS.length : ℤ) - 1)).toNat < PLAYBACK_SPEEDS.length := by
    omega
  refine ⟨PLAYBACK_SPEEDS[(min (Int.floor (x * (PLAYBACK_SPEEDS.length : ℚ)))
      ((PLAYBACK_SPEEDS.length : ℤ) - 1)).toNat], List.getElem_mem hlt, ?_⟩
  unfold mapToSpeed
  rw [if_neg (not_lt.2 hi0)]
  exact List.getElem?_eq_getElem hlt

/-- Whatever the input, a value the quantizer does return is an element
of the table. -/
theorem mapToSpeed_mem (x v : ℚ) (h : mapToSpeed x = some v) :
    v ∈ PLAYBACK_SPEEDS := by
  simp only [mapToSpeed] at h
  split at h
  · exact absurd h (by simp)
  · rcases List.getElem?_eq_some_iff.1 h with ⟨hlt, hv⟩
    exact hv ▸ List.getElem_mem hlt

/-- C5: `mapToSpeed` computes bucket index `floor(x × 12)` clamped to
`[0, 11]` and returns that element of the fixed 12-element table; every
input in `[0, 1)` yields a table element, `mapToSpeed 0 = -4`, input
exactly `1` resolves to the last bucket `4`, and no input maps outside
the table. -/
theorem mapToSpeed_quantizer_spec :
    (∀ x : ℚ, 0 ≤ x → x < 1 →
        mapToSpeed x = PLAYBACK_SPEEDS[(min (Int.floor (x * 12)) 11).toNat]? ∧
        ∃ v ∈ PLAYBACK_SPEEDS, mapToSpeed x = some v) ∧
    mapToSpeed 0 = some (-4) ∧
    mapToSpeed 1 = some 4 ∧
    (∀ x v : ℚ, mapToSpeed x = some v → v ∈ PLAYBACK_SPEEDS) := by
  refine ⟨?_, by simp [mapToSpeed, PLAYBACK_SPEEDS],
    by simp [mapToSpeed, PLAYBACK_SPEEDS], mapToSpeed_mem⟩
  intro x hx0 _
  refine ⟨?_, mapToSpeed_eq_some_of_nonneg x hx0⟩
  have h0 : 0 ≤ Int.floor (x * (PLAYBACK_SPEEDS.length : ℚ)) :=
    Int.floor_nonneg.2 (mul_nonneg hx0 (by norm_num))
  have hi0 : 0 ≤ min (Int.floor (x * (PLAYBACK_SPEEDS.length : ℚ)))
      ((PLAYBACK_SPEEDS.length : ℤ) - 1) := by
    refine le_min h0 ?_
    norm_num [PLAYBACK_SPEEDS]
  unfold mapToSpeed
  rw [if_neg (not_lt.2 hi0)]
  norm_num [PLAYBACK_SPEEDS]

/-- C5 witness: the quantizer at `1/3` returns a table element. -/
theorem mapToSpeed_quantizer_spec_witness :
    ∃ v ∈ PLAYBACK_SPEEDS, mapToSpeed (1/3) = some v :=
  (mapToSpeed_quantizer_spec.1 (1/3) (by norm_num) (by norm_num)).2

/-- C9: for a percent `p` in `[0, 100]`, the reverb slider handler sets
the wet gain to `p/100` and the dry gain to `1 - p/100`, whose sum is
exactly `1`; before the engine has built the wet/dry nodes it is a
no-op. -/
theorem setReverbMix_spec (p : ℤ) (hp0 : 0 ≤ p) (hp1 : p ≤ 100) :
    (∀ r : ReverbNodes,
        setReverbMix (some r) p = some ⟨(p : ℚ) / 100, 1 - (p : ℚ) / 100⟩ ∧
        ∀ r' : ReverbNodes, setReverbMix (some r) p = some r' →
          r'.wet + r'.dry = 1) ∧
    setReverbMix none p = none := by
  refine ⟨fun r => ⟨rfl, fun r' h => ?_⟩, rfl⟩
  have hr : r' = ⟨(p : ℚ) / 100, 1 - (p : ℚ) / 100⟩ := by
    simpa [setReverbMix] using h.symm
  rw [hr]
  ring

/-- C9 witness: `setReverbMix 30` yields wet `0.30` and dry `0.70`. -/
theorem setReverbMix_spec_witness :
    setReverbMix (some ⟨0, 1⟩) 30 = some ⟨(30 : ℚ) / 100, 1 - (30 : ℚ) / 100⟩ :=
  ((setReverbMix_spec 30 (by norm_num) (by norm_num)).1 ⟨0, 1⟩).1

/-! Helper lemmas about the parameter smoother. -/

namespace ParameterSmoother

/-- Unfolding one iteration of `stepN`. -/
theorem stepN_succ (s : ParameterSmoother) (n : ℕ) :
    stepN s (n + 1) = (step (stepN s n)).1 :=
  Function.iterate_succ_apply' _ _ _

/-- Stepping never changes the target. -/
theorem step_fst_targetValue (s : ParameterSmoother) :
    (step s).1.targetValue = s.targetValue := rfl

/-- Stepping never changes the smoothing factor. -/
theorem step_fst_smoothingFactor (s : ParameterSmoother) :
    (step s).1.smoothingFactor = s.smoothingFactor := rfl

/-- Iterated stepping never changes the target. -/
theorem stepN_targetValue (s : ParameterSmoother) (n : ℕ) :
    (stepN s n).targetValue = s.targetValue := by
  induction n with
  | zero => rfl
  | succ n ih => rw [stepN_succ, step_fst_targetValue]; exact ih

/-- Iterated stepping never changes the smoothing factor. -/
theorem stepN_smoothingFactor (s : ParameterSmoother) (n : ℕ) :
    (stepN s n).smoothingFactor = s.smoothingFactor := by
  induction n with
  | zero => rfl
  | succ n ih => rw [stepN_succ, step_fst_smoothingFactor]; exact ih

/-- Geometric decay of the remaining distance to the target: after `n`
steps the signed distance is `(1 - f)^n` times the initial one. -/
theorem dist_stepN (c T f : ℚ) (n : ℕ) :
    T - (stepN ⟨c, T, f⟩ n).currentValue = (1 - f) ^ n * (T - c) := by
  induction n with
  | zero => simp [stepN]
  | succ n ih =>
      rw [stepN_succ]
      have ht := stepN_targetValue ⟨c, T, f⟩ n
      have hf := stepN_smoothingFactor ⟨c, T, f⟩ n
      simp only [step] at ht hf ⊢
      rw [ht, hf]
      linear_combination (1 - f) * ih

end ParameterSmoother

/-- C6: with a smoothing factor in `(0, 1]` and a fixed target `T`,
repeated `step()` calls shrink the distance to `T` monotonically, keep
the current value between its initial value and `T` (no overshoot), and
bring it within any `ε > 0` of `T` from some bounded step count on. -/
theorem smoother_convergence (c T f : ℚ) (hf0 : 0 < f) (hf1 : f ≤ 1) :
    (∀ n : ℕ, |T - (ParameterSmoother.stepN ⟨c, T, f⟩ (n + 1)).currentValue| ≤
        |T - (ParameterSmoother.stepN ⟨c, T, f⟩ n).currentValue|) ∧
    (∀ n : ℕ, min c T ≤ (ParameterSmoother.stepN ⟨c, T, f⟩ n).currentValue ∧
        (ParameterSmoother.stepN ⟨c, T, f⟩ n).currentValue ≤ max c T) ∧
    (∀ ε : ℚ, 0 < ε → ∃ N : ℕ, ∀ n : ℕ, N ≤ n →
        |T - (ParameterSmoother.stepN ⟨c, T, f⟩ n).currentValue| < ε) := by
  have hr0 : 0 ≤ 1 - f := by linarith
  have hr1 : 1 - f < 1 := by linarith
  have hdist : ∀ n : ℕ,
      |T - (ParameterSmoother.stepN ⟨c, T, f⟩ n).currentValue| =
        (1 - f) ^ n * |T - c| := by
    intro n
    rw [ParameterSmoother.dist_stepN, abs_mul, abs_of_nonneg (pow_nonneg hr0 n)]
  refine ⟨?_, ?_, ?_⟩
  · intro n
    rw [hdist, hdist, pow_succ]
    nlinarith [mul_le_of_le_one_left
      (mul_nonneg (pow_nonneg hr0 n) (abs_nonneg (T - c)))
      (by linarith : 1 - f ≤ 1)]
  · intro n
    have hcur : (ParameterSmoother.stepN ⟨c, T, f⟩ n).currentValue =
        T - (1 - f) ^ n * (T - c) := by
      have := ParameterSmoother.dist_stepN c T f n
      linarith
    have hp0 : 0 ≤ (1 - f) ^ n := pow_nonneg hr0 n
    have hp1 : (1 - f) ^ n ≤ 1 := pow_le_one₀ hr0 (by linarith)
    have hminc := min_le_left c T
    have hminT := min_le_right c T
    have hmaxc := le_max_left c T
    have hmaxT := le_max_right c T
    constructor
    · rw [hcur]
      nlinarith [mul_le_mul_of_nonneg_left hminT (by linarith : (0:ℚ) ≤ 1 - (1 - f) ^ n),
        mul_le_mul_of_nonneg_left hminc hp0]
    · rw [hcur]
      nlinarith [mul_le_mul_of_nonneg_left hmaxT (by linarith : (0:ℚ) ≤ 1 - (1 - f) ^ n),
        mul_le_mul_of_nonneg_left hmaxc hp0]
  · intro ε hε
    by_cases hd : T - c = 0
    · refine ⟨0, fun n _ => ?_⟩
      rw [hdist, hd]
      simpa using hε
    · obtain ⟨N, hN⟩ :=
        exists_pow_lt_of_lt_one (div_pos hε (abs_pos.2 hd)) hr1
      refine ⟨N, fun n hn => ?_⟩
      rw [hdist]
      have h1 : (1 - f) ^ n ≤ (1 - f) ^ N :=
        pow_le_pow_of_le_one hr0 (by linarith) hn
      rw [lt_div_iff₀ (abs_pos.2 hd)] at hN
      have h3 : (1 - f) ^ n * |T - c| ≤ (1 - f) ^ N * |T - c| :=
        mul_le_mul_of_nonneg_right h1 (abs_nonneg _)
      linarith

/-- C6 witness: stepping from `0` toward `1` with factor `1/2` does not
move the current value away from the target. -/
theorem smoother_convergence_witness :
    |1 - (ParameterSmoother.stepN ⟨0, 1, 1/2⟩ 1).currentValue| ≤
      |1 - (ParameterSmoother.stepN ⟨0, 1, 1/2⟩ 0).currentValue| :=
  (smoother_convergence 0 1 (1/2) (by norm_num) (by norm_num)).1 0

/-! Transport state machine: field-effect lemmas. -/

/-- The function `stopPlayback` always leaves `isPlaying` off. -/
theorem stopPlayback_isPlaying (l : Looper) : (stopPlayback l).isPlaying = false := by
  unfold stopPlayback
  split
  · next h => exact h
  · cases l.bufferSource <;> rfl

/-- The function `stopPlayback` does not touch the recording flag. -/
theorem stopPlayback_isRecording (l : Looper) :
    (stopPlayback l).isRecording = l.isRecording := by
  unfold stopPlayback
  split
  · rfl
  · cases l.bufferSource <;> rfl

/-- The function `stopPlayback` does not touch the record buffer cursor fields. -/
theorem stopPlayback_recording_fields (l : Looper) :
    (stopPlayback l).writePosition = l.writePosition ∧
    (stopPlayback l).recordedLength = l.recordedLength ∧
    (stopPlayback l).bufferLength = l.bufferLength := by
  unfold stopPlayback
  split
  · exact ⟨rfl, rfl, rfl⟩
  · cases l.bufferSource <;> exact ⟨rfl, rfl, rfl⟩

/-- The function `startRecording` always leaves `isPlaying` off: it stops playback
first when needed. -/
theorem startRecording_isPlaying (l : Looper) :
    (startRecording l).isPlaying = false := by
  unfold startRecording
  by_cases h : l.isPlaying
  · simp only [h, if_true]
    exact stopPlayback_isPlaying l
  · simp only [h, if_false]
    simpa using h

/-- The function `startPlayback` always leaves `isRecording` off: it stops recording
first when needed, and never raises it. -/
theorem startPlayback_isRecording (l : Looper) :
    (startPlayback l).isRecording = false := by
  have key : ∀ l' : Looper, l'.isRecording = false →
      (startPlaybackVoice l').isRecording = false := by
    intro l' h'
    unfold startPlaybackVoice
    split
    · exact h'
    · exact h'
  unfold startPlayback
  by_cases h : l.isRecording = true
  · rw [if_pos h]
    exact key _ rfl
  · rw [if_neg h]
    exact key _ (by simpa using h)

/-- The function `clearLoop` always leaves `isPlaying` off. -/
theorem clearLoop_isPlaying (l : Looper) : (clearLoop l).isPlaying = false := by
  unfold clearLoop stopRecording
  exact stopPlayback_isPlaying l

/-- The recording callback never touches the playing flag. -/
theorem recordTick_isPlaying (l : Looper) (input : List ℚ) :
    (recordTick l input).isPlaying = l.isPlaying := by
  unfold recordTick
  split
  · rfl
  · split <;> rfl

/-- Every transport command and every recording callback preserves
transport exclusivity. -/
theorem applyCommand_exclusive (l : Looper) (c : Command)
    (h : TransportExclusive l) : TransportExclusive (applyCommand l c) := by
  cases c with
  | record => exact Or.inr (startRecording_isPlaying l)
  | stopRec => exact Or.inl rfl
  | play => exact Or.inl (startPlayback_isRecording l)
  | stop => exact Or.inr (stopPlayback_isPlaying l)
  | clear => exact Or.inr (clearLoop_isPlaying l)
  | tick input =>
      rcases h with h | h
      · refine Or.inl ?_
        rw [show applyCommand l (Command.tick input) = recordTick l input from rfl]
        unfold recordTick
        rw [if_pos h]
        exact h
      · refine Or.inr ?_
        rw [show applyCommand l (Command.tick input) = recordTick l input from rfl,
          recordTick_isPlaying]
        exact h

/-- Transport exclusivity is preserved along any command sequence. -/
theorem applyCommands_exclusive (cs : List Command) (l : Looper)
    (h : TransportExclusive l) : TransportExclusive (applyCommands l cs) := by
  induction cs generalizing l with
  | nil => exact h
  | cons c cs ih => exact ih _ (applyCommand_exclusive l c h)

/-- C2: starting from a freshly created looper, no sequence of transport
commands and recording ticks can make `isRecording` and `isPlaying` both
true at the same time. -/
theorem transport_exclusivity (index sampleRate : Nat) (cs : List Command) :
    (applyCommands (createLooper index sampleRate) cs).isRecording = false ∨
    (applyCommands (createLooper index sampleRate) cs).isPlaying = false :=
  applyCommands_exclusive cs (createLooper index sampleRate) (Or.inl rfl)

/-! Recording capacity: the buffer cursor never leaves `[0, sampleRate * 30]`. -/

/-- A recording callback preserves the capacity invariant: the copy is
clipped to the remaining room. -/
theorem recordTick_capacity (sampleRate : Nat) (l : Looper) (input : List ℚ)
    (h : CapacityInv sampleRate l) : CapacityInv sampleRate (recordTick l input) := by
  obtain ⟨hb, hw, hr⟩ := h
  unfold recordTick
  split
  · exact ⟨hb, hw, hr⟩
  · split
    · exact ⟨hb, hw, hr⟩
    · refine ⟨hb, ?_, le_refl _⟩
      have hmin : min input.length (l.bufferLength - l.writePosition) ≤
          l.bufferLength - l.writePosition := min_le_right _ _
      show l.writePosition + min input.length (l.bufferLength - l.writePosition) ≤
        sampleRate * 30
      omega

/-- Every transport command preserves the capacity invariant. -/
theorem applyCommand_capacity (sampleRate : Nat) (l : Looper) (c : Command)
    (h : CapacityInv sampleRate l) : CapacityInv sampleRate (applyCommand l c) := by
  obtain ⟨hb, hw, hr⟩ := h
  cases c with
  | record =>
      refine ⟨?_, Nat.zero_le _, le_refl _⟩
      show (if l.isPlaying then stopPlayback l else l).bufferLength = sampleRate * 30
      split
      · exact (stopPlayback_recording_fields l).2.2.trans hb
      · exact hb
  | stopRec => exact ⟨hb, hw, hr⟩
  | play =>
      have key : ∀ l' : Looper, CapacityInv sampleRate l' →
          CapacityInv sampleRate (startPlaybackVoice l') := by
        intro l' h'
        unfold startPlaybackVoice
        split
        · exact h'
        · exact h'
      refine key _ ?_
      show CapacityInv sampleRate (if l.isRecording then stopRecording l else l)
      split
      · exact ⟨hb, hw, hr⟩
      · exact ⟨hb, hw, hr⟩
  | stop =>
      obtain ⟨h1, h2, h3⟩ := stopPlayback_recording_fields l
      refine ⟨h3.trans hb, ?_, ?_⟩
      · show (stopPlayback l).writePosition ≤ sampleRate * 30
        rw [h1]; exact hw
      · show (stopPlayback l).recordedLength ≤ (stopPlayback l).writePosition
        rw [h1, h2]; exact hr
  | clear =>
      refine ⟨?_, Nat.zero_le _, le_refl _⟩
      show (stopRecording (stopPlayback l)).bufferLength = sampleRate * 30
      exact (stopPlayback_recording_fields l).2.2.trans hb
  | tick input => exact recordTick_capacity sampleRate l input ⟨hb, hw, hr⟩

/-- The capacity invariant is preserved along any command sequence. -/
theorem applyCommands_capacity (sampleRate : Nat) (cs : List Command) (l : Looper)
    (h : CapacityInv sampleRate l) : CapacityInv sampleRate (applyCommands l cs) := by
  induction cs generalizing l with
  | nil => exact h
  | cons c cs ih => exact ih _ (applyCommand_capacity sampleRate l c h)

/-- C3: from a freshly created looper, under every command sequence, the
write cursor and `recordedLength` never exceed `sampleRate * 30`; a
further recording callback keeps the cursor within capacity and never
writes at or past index `sampleRate * 30` (writes are clipped); and when
the capacity is exhausted while recording, the next callback auto-stops
recording instead of failing. -/
theorem recording_capacity_bound (index sampleRate : Nat) (cs : List Command) :
    (applyCommands (createLooper index sampleRate) cs).writePosition ≤ sampleRate * 30 ∧
    (applyCommands (createLooper index sampleRate) cs).recordedLength ≤ sampleRate * 30 ∧
    (∀ input : List ℚ,
      (recordTick (applyCommands (createLooper index sampleRate) cs) input).writePosition ≤
        sampleRate * 30) ∧
    (∀ (input : List ℚ) (i : Nat), sampleRate * 30 ≤ i →
      (recordTick (applyCommands (createLooper index sampleRate) cs) input).recordBufferData i =
        (applyCommands (createLooper index sampleRate) cs).recordBufferData i) ∧
    ((applyCommands (createLooper index sampleRate) cs).isRecording = true →
      sampleRate * 30 ≤ (applyCommands (createLooper index sampleRate) cs).writePosition →
      ∀ input : List ℚ,
        (recordTick (applyCommands (createLooper index sampleRate) cs) input).isRecording =
          false) := by
  have hinv : CapacityInv sampleRate (applyCommands (createLooper index sampleRate) cs) :=
    applyCommands_capacity sampleRate cs _ ⟨rfl, Nat.zero_le _, le_refl _⟩
  obtain ⟨hb, hw, hr⟩ := hinv
  refine ⟨hw, le_trans hr hw, ?_, ?_, ?_⟩
  · intro input
    exact (recordTick_capacity sampleRate _ input ⟨hb, hw, hr⟩).2.1
  · intro input i hi
    unfold recordTick
    split
    · rfl
    · split
      · rfl
      · have hmin : min input.length
            ((applyCommands (createLooper index sampleRate) cs).bufferLength -
              (applyCommands (createLooper index sampleRate) cs).writePosition) ≤
            (applyCommands (createLooper index sampleRate) cs).bufferLength -
              (applyCommands (createLooper index sampleRate) cs).writePosition :=
          min_le_right _ _
        show (if _ ∧ _ then _ else _) = _
        rw [if_neg]
        omega
  · intro hrec hfull input
    unfold recordTick
    rw [if_neg (by simp [hrec]), if_pos (by omega)]
    rfl

/-- C3 witness: with a one-sample-per-second rate the capacity is 30
samples; after recording exactly 30 samples the next callback auto-stops
recording. -/
theorem recording_capacity_bound_witness :
    (recordTick (applyCommands (createLooper 0 1)
        [Command.record, Command.tick (List.replicate 30 0)]) []).isRecording = false :=
  (recording_capacity_bound 0 1
      [Command.record, Command.tick (List.replicate 30 0)]).2.2.2.2
    (by decide) (by decide) []

/-- C4 counterexample: a looper that has just started recording has
`recordedLength == 0`, yet `play` is not a no-op on it — it stops the
recording (`startPlayback` runs its stop-recording preamble before the
empty-buffer guard), so the state changes. -/
theorem play_on_empty_mutates :
    (startRecording (createLooper 0 44100)).recordedLength = 0 ∧
    (startRecording (createLooper 0 44100)).isRecording = true ∧
    (startPlayback (startRecording (createLooper 0 44100))).isRecording = false ∧
    startPlayback (startRecording (createLooper 0 44100)) ≠
      startRecording (createLooper 0 44100) := by
  refine ⟨rfl, rfl, rfl, fun h => ?_⟩
  have h' := congrArg Looper.isRecording h
  rw [startPlayback_isRecording] at h'
  exact Bool.noConfusion h'

/-- C4 amended: `play` on a looper with `recordedLength == 0` creates no
voice and never transitions to Playing; it is a complete no-op when the
looper is not currently Recording, and when it is Recording the only
state change is that recording stops first. -/
theorem play_on_empty_noop (l : Looper) (hlen : l.recordedLength = 0) :
    startPlayback l = (if l.isRecording then stopRecording l else l) ∧
    (startPlayback l).isPlaying = l.isPlaying ∧
    (startPlayback l).bufferSource = l.bufferSource ∧
    (startPlayback l).runningVoices = l.runningVoices ∧
    (startPlayback l).nextVoiceId = l.nextVoiceId ∧
    (startPlayback l).recordedLength = 0 ∧
    (l.isRecording = false → startPlayback l = l) := by
  have key : startPlayback l = if l.isRecording then stopRecording l else l := by
    unfold startPlayback startPlaybackVoice
    by_cases h : l.isRecording = true
    · rw [if_pos h]
      exact if_pos (show (stopRecording l).recordedLength = 0 from hlen)
    · rw [if_neg h]
      exact if_pos hlen
  rw [key]
  by_cases h : l.isRecording = true
  · rw [if_pos h]
    exact ⟨rfl, rfl, rfl, rfl, rfl, hlen, fun hf => absurd h (by simp [hf])⟩
  · rw [if_neg h]
    exact ⟨rfl, rfl, rfl, rfl, rfl, hlen, fun _ => rfl⟩

/-- C4 witness: on a fresh (idle, empty) looper `play` changes
nothing. -/
theorem play_on_empty_noop_witness :
    startPlayback (createLooper 0 44100) = createLooper 0 44100 :=
  (play_on_empty_noop (createLooper 0 44100) rfl).2.2.2.2.2.2 rfl

/-! Recording content: what a run of recording callbacks leaves in the
buffer. -/

/-- One recording callback with room for the whole (nonempty) input
block: the copy is not clipped, the samples land at `writePosition`, and
the cursor advances by the block length. -/
theorem recordTick_run (l : Looper) (input : List ℚ)
    (hrec : l.isRecording = true) (hne : input ≠ [])
    (hroom : l.writePosition + input.length ≤ l.bufferLength) :
    recordTick l input = { l with
      recordBufferData := fun i =>
        if l.writePosition ≤ i ∧ i < l.writePosition + input.length then
          input.getD (i - l.writePosition) 0
        else l.recordBufferData i
      writePosition := l.writePosition + input.length
      recordedLength := l.writePosition + input.length } := by
  have hlen : 0 < input.length := List.length_pos.2 hne
  have hmin : min input.length (l.bufferLength - l.writePosition) = input.length := by
    omega
  unfold recordTick
  rw [if_neg (by simp [hrec]), if_neg (by omega), hmin]

/-- A run of recording callbacks with nonempty blocks whose total length
fits into the remaining room: recording stays on, the cursor and
`recordedLength` advance by the total length, samples outside the
written window are untouched, the written window holds exactly the
concatenated input, and no other field changes. -/
theorem recordTicks_spec (inputs : List (List ℚ)) (l : Looper)
    (hrec : l.isRecording = true)
    (hwr : l.recordedLength = l.writePosition)
    (hne : ∀ x ∈ inputs, x ≠ [])
    (hroom : l.writePosition + inputs.flatten.length ≤ l.bufferLength) :
    (inputs.foldl recordTick l).isRecording = true ∧
    (inputs.foldl recordTick l).writePosition =
      l.writePosition + inputs.flatten.length ∧
    (inputs.foldl recordTick l).recordedLength =
      l.writePosition + inputs.flatten.length ∧
    (∀ i : Nat, i < l.writePosition ∨ l.writePosition + inputs.flatten.length ≤ i →
      (inputs.foldl recordTick l).recordBufferData i = l.recordBufferData i) ∧
    (∀ j : Nat, j < inputs.flatten.length →
      (inputs.foldl recordTick l).recordBufferData (l.writePosition + j) =
        inputs.flatten.getD j 0) ∧
    (inputs.foldl recordTick l).bufferLength = l.bufferLength ∧
    (inputs.foldl recordTick l).isPlaying = l.isPlaying ∧
    (inputs.foldl recordTick l).targetPlaybackRate = l.targetPlaybackRate ∧
    (inputs.foldl recordTick l).bufferSource = l.bufferSource ∧
    (inputs.foldl recordTick l).runningVoices = l.runningVoices ∧
    (inputs.foldl recordTick l).nextVoiceId = l.nextVoiceId := by
  induction inputs generalizing l with
  | nil =>
      refine ⟨hrec, by simp, by simpa using hwr, fun i _ => rfl, fun j hj => by simp at hj,
        rfl, rfl, rfl, rfl, rfl, rfl⟩
  | cons input rest ih =>
      have hne1 : input ≠ [] := hne input (List.mem_cons_self _ _)
      have hlen1 : 0 < input.length := List.length_pos.2 hne1
      have htot : (List.flatten (input :: rest)).length =
          input.length + (List.flatten rest).length := by
        rw [List.flatten_cons, List.length_append]
      have hroom1 : l.writePosition + input.length ≤ l.bufferLength := by omega
      have hrun := recordTick_run l input hrec hne1 hroom1
      rw [List.foldl_cons, hrun]
      set l₁ : Looper := { l with
        recordBufferData := fun i =>
          if l.writePosition ≤ i ∧ i < l.writePosition + input.length then
            input.getD (i - l.writePosition) 0
          else l.recordBufferData i
        writePosition := l.writePosition + input.length
        recordedLength := l.writePosition + input.length } with hl₁
      have hw₁ : l₁.writePosition = l.writePosition + input.length := rfl
      have hb₁ : l₁.bufferLength = l.bufferLength := rfl
      have hbuf₁ : ∀ i : Nat, l₁.recordBufferData i =
          if l.writePosition ≤ i ∧ i < l.writePosition + input.length then
            input.getD (i - l.writePosition) 0
          else l.recordBufferData i := fun i => rfl
      obtain ⟨ih1, ih2, ih3, ih4, ih5, ih6, ih7, ih8, ih9, ih10, ih11⟩ :=
        ih l₁ hrec rfl (fun x hx => hne x (List.mem_cons_of_mem _ hx))
          (by rw [hw₁, hb₁]; omega)
      refine ⟨ih1, by rw [ih2, hw₁]; omega, by rw [ih3, hw₁]; omega, ?_, ?_,
        ih6, ih7, ih8, ih9, ih10, ih11⟩
      · intro i hi
        rw [ih4 i (by rw [hw₁]; omega), hbuf₁ i, if_neg (by omega)]
      · intro j hj
        rw [htot] at hj
        by_cases hjl : j < input.length
        · rw [ih4 (l.writePosition + j) (Or.inl (by rw [hw₁]; omega)), hbuf₁,
            if_pos (by omega)]
          have hsub : l.writePosition + j - l.writePosition = j := by omega
          rw [hsub, List.flatten_cons]
          exact (List.getD_append _ _ _ j hjl).symm
        · have hpos : l.writePosition + j = l₁.writePosition + (j - input.length) := by
            rw [hw₁]; omega
          rw [hpos, ih5 (j - input.length) (by omega), List.flatten_cons,
            List.getD_eq_getElem?_getD, List.getD_eq_getElem?_getD,
            List.getElem?_append_right (by omega : input.length ≤ j)]

/-- C1: record some nonempty input blocks (total length `n > 0`, within
capacity) into a fresh looper, stop, then play: `recordedLength` equals
the number of recorded samples, the looper is Playing, and the new
playback voice references a fresh copy of exactly the first
`recordedLength` buffer samples — sample-for-sample the recorded input —
looping, at the `targetPlaybackRate` of the looper. -/
theorem record_play_round_trip (index sampleRate : Nat) (inputs : List (List ℚ))
    (hne : ∀ x ∈ inputs, x ≠ []) (hpos : 0 < inputs.flatten.length)
    (hcap : inputs.flatten.length ≤ sampleRate * 30) :
    (inputs.foldl recordTick (startRecording (createLooper index sampleRate))).recordedLength
        = inputs.flatten.length ∧
    (startPlayback (stopRecording
        (inputs.foldl recordTick (startRecording (createLooper index sampleRate))))).isPlaying
        = true ∧
    ∃ v : Voice,
      (startPlayback (stopRecording
          (inputs.foldl recordTick
            (startRecording (createLooper index sampleRate))))).bufferSource = some v.id ∧
      v ∈ (startPlayback (stopRecording
          (inputs.foldl recordTick
            (startRecording (createLooper index sampleRate))))).runningVoices ∧
      v.buffer = inputs.flatten ∧ v.loop = true ∧
      v.rate = (startPlayback (stopRecording
          (inputs.foldl recordTick
            (startRecording (createLooper index sampleRate))))).targetPlaybackRate := by
  have hwp0 : (startRecording (createLooper index sampleRate)).writePosition = 0 := rfl
  have hbl0 : (startRecording (createLooper index sampleRate)).bufferLength =
      sampleRate * 30 := rfl
  obtain ⟨ih1, ih2, ih3, ih4, ih5, ih6, ih7, ih8, ih9, ih10, ih11⟩ :=
    recordTicks_spec inputs (startRecording (createLooper index sampleRate)) rfl rfl hne
      (by rw [hwp0, hbl0]; omega)
  simp only [hwp0, Nat.zero_add] at ih2 ih3 ih5
  have hrl' : (stopRecording (inputs.foldl recordTick
      (startRecording (createLooper index sampleRate)))).recordedLength =
      inputs.flatten.length := ih3
  have hsp : startPlayback (stopRecording (inputs.foldl recordTick
      (startRecording (createLooper index sampleRate)))) =
      startPlaybackVoice (stopRecording (inputs.foldl recordTick
        (startRecording (createLooper index sampleRate)))) := by
    unfold startPlayback
    rw [if_neg (by simp [stopRecording])]
  have hne0 : ¬ ((stopRecording (inputs.foldl recordTick
      (startRecording (createLooper index sampleRate)))).recordedLength = 0) := by
    rw [hrl']; omega
  refine ⟨ih3, ?_⟩
  rw [hsp]
  unfold startPlaybackVoice
  rw [if_neg hne0]
  refine ⟨rfl, ?_⟩
  refine ⟨_, rfl, List.mem_append_right _ (List.mem_singleton.2 rfl), ?_, rfl, rfl⟩
  apply List.ext_getElem
  · rw [List.length_map, List.length_range, hrl']
  · intro n h₁ h₂
    have hn : n < inputs.flatten.length := by
      rw [List.length_map, List.length_range, hrl'] at h₁
      exact h₁
    rw [List.getElem_map, List.getElem_range]
    have hv := ih5 n hn
    rw [show (stopRecording (inputs.foldl recordTick
        (startRecording (createLooper index sampleRate)))).recordBufferData =
      (inputs.foldl recordTick
        (startRecording (createLooper index sampleRate))).recordBufferData from rfl, hv,
      List.getD_eq_getElem?_getD, List.getElem?_eq_getElem hn]
    rfl

/-- C1 witness: record a single one-sample block, stop, play — the
looper ends up Playing. -/
theorem record_play_round_trip_witness :
    (startPlayback (stopRecording (List.foldl recordTick
        (startRecording (createLooper 0 1)) [[1/2]]))).isPlaying = true :=
  (record_play_round_trip 0 1 [[1/2]] (by simp) (by simp) (by norm_num)).2.1

/-- The effect of `stopPlayback` on a playing looper with a referenced voice: that
voice (and only it) is removed from the running voices, the reference is
cleared, and the looper stops playing. -/
theorem stopPlayback_playing (l : Looper) (vid : Nat)
    (hplay : l.isPlaying = true) (hsrc : l.bufferSource = some vid) :
    (stopPlayback l).runningVoices = l.runningVoices.filter (fun v => v.id ≠ vid) ∧
    (stopPlayback l).bufferSource = none ∧
    (stopPlayback l).isPlaying = false := by
  unfold stopPlayback
  rw [if_neg (by simp [hplay]), hsrc]
  exact ⟨rfl, rfl, rfl⟩

/-- C10: `play` on a looper that is already Playing (nonempty recording)
starts a second voice without stopping the first: the looper stays
Playing, `bufferSource` now references the fresh voice, every previously
running voice keeps running, and a subsequent `stopPlayback` removes
only the most recently created voice, leaving the earlier ones
running. -/
theorem play_while_playing_keeps_old_voice (l : Looper) (vid : Nat)
    (hplay : l.isPlaying = true) (hrec : l.isRecording = false)
    (hlen : ¬ l.recordedLength = 0) (hsrc : l.bufferSource = some vid)
    (hfresh : ∀ v ∈ l.runningVoices, v.id < l.nextVoiceId) :
    (startPlayback l).isPlaying = true ∧
    (startPlayback l).bufferSource = some l.nextVoiceId ∧
    (∀ v ∈ l.runningVoices, v ∈ (startPlayback l).runningVoices) ∧
    (stopPlayback (startPlayback l)).runningVoices = l.runningVoices ∧
    (stopPlayback (startPlayback l)).isPlaying = false := by
  have hsp : startPlayback l = { l with
      bufferSource := some l.nextVoiceId
      runningVoices := l.runningVoices ++
        [{ id := l.nextVoiceId
           buffer := (List.range l.recordedLength).map l.recordBufferData
           loop := true
           rate := l.targetPlaybackRate }]
      nextVoiceId := l.nextVoiceId + 1
      isPlaying := true } := by
    have hif : (if l.isRecording then stopRecording l else l) = l :=
      if_neg (by simp [hrec])
    unfold startPlayback startPlaybackVoice
    rw [hif, if_neg hlen]
  have hP1 : (startPlayback l).isPlaying = true := by rw [hsp]
  have hP2 : (startPlayback l).bufferSource = some l.nextVoiceId := by rw [hsp]
  have hP3 : (startPlayback l).runningVoices = l.runningVoices ++
      [{ id := l.nextVoiceId
         buffer := (List.range l.recordedLength).map l.recordBufferData
         loop := true
         rate := l.targetPlaybackRate }] := by rw [hsp]
  obtain ⟨hs1, hs2, hs3⟩ :=
    stopPlayback_playing (startPlayback l) l.nextVoiceId hP1 hP2
  have hself : List.filter (fun v => v.id ≠ l.nextVoiceId) l.runningVoices =
      l.runningVoices :=
    List.filter_eq_self.2 fun v hv => by simp [Nat.ne_of_lt (hfresh v hv)]
  refine ⟨hP1, hP2, ?_, ?_, hs3⟩
  · intro v hv
    rw [hP3]
    exact List.mem_append_left _ hv
  · rw [hs1, hP3, List.filter_append, hself]
    simp

/-- C10 witness: record one sample and play twice — the first voice is
still running after the second `play`, and a `stop` removes only the
second voice. -/
theorem play_while_playing_keeps_old_voice_witness :
    (stopPlayback (startPlayback (startPlayback (stopRecording (List.foldl recordTick
        (startRecording (createLooper 0 1)) [[1/2]]))))).runningVoices =
      (startPlayback (stopRecording (List.foldl recordTick
        (startRecording (createLooper 0 1)) [[1/2]]))).runningVoices :=
  (play_while_playing_keeps_old_voice
    (startPlayback (stopRecording (List.foldl recordTick
      (startRecording (createLooper 0 1)) [[1/2]])))
    0 (by decide) (by decide) (by decide) (by decide)
    (by decide)).2.2.2.1

/-- C7: for every orientation sample in device range, the listener
normalizes gamma to `(gamma+90)/180`, beta to `(beta+180)/360`, alpha to
`alpha/360`, and routes: looper 0 glitch ← norm gamma, speed ←
`mapToSpeed(norm beta)`; looper 1 glitch ← norm beta, speed ←
`mapToSpeed(norm alpha)`; looper 2 glitch ← norm alpha, speed ←
`mapToSpeed(norm gamma)`; looper 3 glitch ← average of norm gamma and
norm beta, speed ← `mapToSpeed(norm alpha)`. In particular gamma `0`,
beta `-180`, alpha `0` normalize to `1/2`, `0`, `0`. -/
theorem orientation_fan_out (s : EngineOrient) (gamma beta alpha : ℚ)
    (hg1 : -90 ≤ gamma) (hg2 : gamma ≤ 90)
    (hb1 : -180 ≤ beta) (hb2 : beta ≤ 180)
    (ha1 : 0 ≤ alpha) (ha2 : alpha < 360) :
    (normGamma 0 = 1/2 ∧ normBeta (-180) = 0 ∧ normAlpha 0 = 0) ∧
    ∃ s' : EngineOrient, onOrientation s gamma beta alpha = some s' ∧
      s'.smoother0.targetValue = normGamma gamma ∧
      s'.smoother1.targetValue = normBeta beta ∧
      s'.smoother2.targetValue = normAlpha alpha ∧
      s'.smoother3.targetValue = (normGamma gamma + normBeta beta) / 2 ∧
      mapToSpeed (normBeta beta) = some s'.looper0.targetPlaybackRate ∧
      mapToSpeed (normAlpha alpha) = some s'.looper1.targetPlaybackRate ∧
      mapToSpeed (normGamma gamma) = some s'.looper2.targetPlaybackRate ∧
      mapToSpeed (normAlpha alpha) = some s'.looper3.targetPlaybackRate := by
  refine ⟨⟨by norm_num [normGamma], by norm_num [normBeta], by norm_num [normAlpha]⟩, ?_⟩
  obtain ⟨sb, hsbmem, hsb⟩ := mapToSpeed_eq_some_of_nonneg (normBeta beta)
    (by unfold normBeta; linarith)
  obtain ⟨sa, hsamem, hsa⟩ := mapToSpeed_eq_some_of_nonneg (normAlpha alpha)
    (by unfold normAlpha; linarith)
  obtain ⟨sg, hsgmem, hsg⟩ := mapToSpeed_eq_some_of_nonneg (normGamma gamma)
    (by unfold normGamma; linarith)
  have hstep : onOrientation s gamma beta alpha = some { s with
      smoother0 := s.smoother0.setTarget (normGamma gamma)
      looper0 := { s.looper0 with targetPlaybackRate := sb }
      smoother1 := s.smoother1.setTarget (normBeta beta)
      looper1 := { s.looper1 with targetPlaybackRate := sa }
      smoother2 := s.smoother2.setTarget (normAlpha alpha)
      looper2 := { s.looper2 with targetPlaybackRate := sg }
      smoother3 := s.smoother3.setTarget ((normGamma gamma + normBeta beta) / 2)
      looper3 := { s.looper3 with targetPlaybackRate := sa } } := by
    unfold onOrientation
    rw [hsb, hsa, hsg]
  exact ⟨_, hstep, rfl, rfl, rfl, rfl, hsb, hsa, hsg, hsa⟩

/-- C7 witness: the documented sample gamma `0`, beta `-180`, alpha `0`
against a concrete engine state. -/
theorem orientation_fan_out_witness :
    (normGamma 0 = 1/2 ∧ normBeta (-180) = 0 ∧ normAlpha 0 = 0) ∧
    ∃ s' : EngineOrient, onOrientation engineOrient0 0 (-180) 0 = some s' ∧
      s'.smoother0.targetValue = normGamma 0 ∧
      s'.smoother1.targetValue = normBeta (-180) ∧
      s'.smoother2.targetValue = normAlpha 0 ∧
      s'.smoother3.targetValue = (normGamma 0 + normBeta (-180)) / 2 ∧
      mapToSpeed (normBeta (-180)) = some s'.looper0.targetPlaybackRate ∧
      mapToSpeed (normAlpha 0) = some s'.looper1.targetPlaybackRate ∧
      mapToSpeed (normGamma 0) = some s'.looper2.targetPlaybackRate ∧
      mapToSpeed (normAlpha 0) = some s'.looper3.targetPlaybackRate :=
  orientation_fan_out engineOrient0 0 (-180) 0 (by norm_num) (by norm_num)
    (by norm_num) (by norm_num) (by norm_num) (by norm_num)

/-- The frame update written out case by case. -/
theorem frameUpdate_eq (l : Looper) (sm : SmootherPair) :
    frameUpdate l sm = ({ l with
      glitchIntensity := (sm.glitchIntensity.step).2
      playbackRate := if l.targetPlaybackRate = 0 then 1 else l.targetPlaybackRate
      stutterRate := (sm.stutterRate.step).2
      runningVoices :=
        match l.bufferSource, l.isPlaying with
        | some vid, true =>
            l.runningVoices.map fun v =>
              if v.id = vid then
                { v with rate := if l.targetPlaybackRate = 0 then 1
                    else l.targetPlaybackRate }
              else v
        | _, _ => l.runningVoices },
      { glitchIntensity := (sm.glitchIntensity.step).1
        stutterRate := (sm.stutterRate.step).1 }) := by
  simp only [frameUpdate]
  cases hbs : l.bufferSource <;> cases hip : l.isPlaying <;> simp [hbs, hip]

/-- C8: on a frame tick (applied to every looper of the list),
`glitchIntensity` and `stutterRate` advance by exactly one step of their
smoothers, `playbackRate` is copied unsmoothed from
`targetPlaybackRate` (nonzero for any reachable target, since the speed
table has no zero), and when the looper is Playing the referenced
running voice gets that rate written in place — same id, same buffer,
not restarted, no voice created or removed. -/
theorem frame_parameter_application (l : Looper) (sm : SmootherPair)
    (ht : ¬ l.targetPlaybackRate = 0) :
    (frameUpdate l sm).1.glitchIntensity = (sm.glitchIntensity.step).2 ∧
    (frameUpdate l sm).2.glitchIntensity = (sm.glitchIntensity.step).1 ∧
    (frameUpdate l sm).1.stutterRate = (sm.stutterRate.step).2 ∧
    (frameUpdate l sm).2.stutterRate = (sm.stutterRate.step).1 ∧
    (frameUpdate l sm).1.playbackRate = l.targetPlaybackRate ∧
    (frameUpdate l sm).1.targetPlaybackRate = l.targetPlaybackRate ∧
    (frameUpdate l sm).1.isPlaying = l.isPlaying ∧
    (frameUpdate l sm).1.bufferSource = l.bufferSource ∧
    (frameUpdate l sm).1.nextVoiceId = l.nextVoiceId ∧
    (frameUpdate l sm).1.runningVoices.map Voice.id =
      l.runningVoices.map Voice.id ∧
    (frameUpdate l sm).1.runningVoices.map Voice.buffer =
      l.runningVoices.map Voice.buffer ∧
    (l.isPlaying = false → (frameUpdate l sm).1.runningVoices = l.runningVoices) ∧
    (∀ vid : Nat, l.isPlaying = true → l.bufferSource = some vid →
      ∀ v ∈ l.runningVoices, v.id = vid →
        { v with rate := l.targetPlaybackRate } ∈ (frameUpdate l sm).1.runningVoices) ∧
    (∀ (ls : List (Looper × SmootherPair)) (k : Nat),
      (updateLooperParameters ls)[k]? = (ls[k]?).map fun p => frameUpdate p.1 p.2) := by
  rw [frameUpdate_eq]
  refine ⟨rfl, rfl, rfl, rfl, if_neg ht, rfl, rfl, rfl, rfl, ?_, ?_, ?_, ?_, ?_⟩
  · cases hbs : l.bufferSource with
    | none => cases hip : l.isPlaying <;> simp [hbs, hip]
    | some vid =>
        cases hip : l.isPlaying <;> simp [hbs, hip]
        intro v _
        by_cases hvid : v.id = vid <;> simp [hvid]
  · cases hbs : l.bufferSource with
    | none => cases hip : l.isPlaying <;> simp [hbs, hip]
    | some vid =>
        cases hip : l.isPlaying <;> simp [hbs, hip]
        intro v _
        by_cases hvid : v.id = vid <;> simp [hvid]
  · intro hip
    cases hbs : l.bufferSource <;> simp [hbs, hip]
  · intro vid hip hbs v hv hvid
    simp only [hbs, hip]
    refine List.mem_map.2 ⟨v, hv, ?_⟩
    rw [if_pos hvid, if_neg ht]
  · intro ls k
    exact List.getElem?_map _ _ _

/-- C8 witness: a frame tick on a concrete playing looper copies the
target playback rate into `playbackRate`. -/
theorem frame_parameter_application_witness :
    (frameUpdate (startPlayback (stopRecording (List.foldl recordTick
        (startRecording (createLooper 0 1)) [[1/2]])))
      ⟨ParameterSmoother.mk0 0 (15/100), ParameterSmoother.mk0 0 (2/10)⟩).1.playbackRate =
    (startPlayback (stopRecording (List.foldl recordTick
        (startRecording (createLooper 0 1)) [[1/2]]))).targetPlaybackRate :=
  (frame_parameter_application _ _ (by decide)).2.2.2.2.1
